import Mathlib

/-!
Verification of the Events-to-Client Reporting layer
(src/chrome/client/eventsToClientReporter.ts).

The reporter translates internal debugger-domain events into protocol
events and dispatches each one to the session transport.  We embed the
reporter operations as pure functions.  Because JavaScript objects are
mutable references, each operation returns a `SendOutcome` record that
carries: the success/failure result of the call (mirrors a resolved or
rejected promise / a thrown exception), the caller-visible params object
after the call (so that frame properties about mutation of the request
are statable), the handles registry after the call (the shared mutable
collaborator state), and the ordered list of events handed to
`Session.sendEvent` during the call.

The field converters (location, source, breakpoint-status), the handles
registry, the exception stack-trace printer, `StoppedEvent2` and
`ChromeDebugLogic.THREAD_ID` are repository code that is not part of the
sources under verification; where a claim depends on their behaviour
they are modelled from the specification, as marked on each definition.
-/

set_option autoImplicit false

/-- Internal loaded-source entity (`ILoadedSource`).  Modelled from the spec:
the file `src/chrome/internal/sources/loadedSource.ts` is not under the
verified sources; per spec §3 a source identity "may be a filesystem path or
an in-memory/script-only artifact with no path, requiring a handle". -/
structure ILoadedSource where
  identifier : String
  path : Option String
deriving DecidableEq, Repr

/-- Internal location in a loaded source (`LocationInLoadedSource`).  The
reporter treats it opaquely and passes it to the location converter. -/
structure LocationInLoadedSource where
  source : ILoadedSource
  lineNumber : Nat
  columnNumber : Nat
deriving DecidableEq, Repr

/-- Internal breakpoint-recipe status (`IBPRecipeStatus`).  The reporter
treats it opaquely; per spec §3 it describes "the verification outcome of a
previously requested breakpoint (verified/unverified, resolved location,
message)". -/
structure IBPRecipeStatus where
  verified : Bool
  resolvedLine : Option Nat
  message : Option String
deriving DecidableEq, Repr

/-- One formatted stack-frame description (`IFormattedExceptionLineDescription`). -/
structure IFormattedExceptionLineDescription where
  description : String
deriving DecidableEq, Repr

/-- Raw runtime representation of a thrown value (`CDTP.Runtime.RemoteObject`);
opaque to the reporter. -/
structure RemoteObject where
  description : Option String
deriving DecidableEq, Repr

/-- The stop reason type (`ReasonType` from stoppedEvent.ts), a union of
strings. -/
abbrev ReasonType := String

/-- Request shape for `sendOutput` (`IOutputParameters`). -/
structure IOutputParameters where
  output : String
  category : String
  variablesReference : Option Nat
  location : Option LocationInLoadedSource
deriving DecidableEq, Repr

/-- The `reason` union type of `ISourceWasLoadedParameters`. -/
inductive SourceLoadReason where
  | new
  | changed
  | removed
deriving DecidableEq, Repr

/-- Request shape for `sendSourceWasLoaded` (`ISourceWasLoadedParameters`). -/
structure ISourceWasLoadedParameters where
  reason : SourceLoadReason
  source : ILoadedSource
deriving DecidableEq, Repr

/-- Request shape for `sendBPStatusChanged` (`IBPStatusChangedParameters`). -/
structure IBPStatusChangedParameters where
  reason : String
  bpRecipeStatus : IBPRecipeStatus
deriving DecidableEq, Repr

/-- Request shape for `sendExceptionThrown` (`IExceptionThrownParameters`). -/
structure IExceptionThrownParameters where
  exceptionStackTrace : List IFormattedExceptionLineDescription
  category : String
  location : Option LocationInLoadedSource
deriving DecidableEq, Repr

/-- Request shape for `sendDebuggeeIsStopped` (`IDebuggeeIsStoppedParameters`). -/
structure IDebuggeeIsStoppedParameters where
  reason : ReasonType
  exception : Option RemoteObject
deriving DecidableEq, Repr

/-- Client-shaped source (`DebugProtocol.Source`): the projection the source
converter produces. -/
structure ClientSource where
  name : Option String
  path : Option String
  sourceReference : Option Nat
deriving DecidableEq, Repr

/-- Client-shaped breakpoint (`DebugProtocol.Breakpoint`): the projection the
breakpoint-status converter produces. -/
structure ClientBreakpoint where
  verified : Bool
  line : Option Nat
  message : Option String
deriving DecidableEq, Repr

/-- Body of a protocol Output event (`DebugProtocol.OutputEvent` body).  The
`OutputEvent` constructor populates `output` and `category`; the optional
fields are absent (`none`) unless attached by the reporter or the location
converter. -/
structure OutputEventBody where
  output : String
  category : String
  variablesReference : Option Nat := none
  source : Option ClientSource := none
  line : Option Nat := none
  column : Option Nat := none
deriving DecidableEq, Repr

/-- The four protocol event kinds the reporter can hand to
`Session.sendEvent`.  `stopped` mirrors `StoppedEvent2`; modelled from the
spec: stoppedEvent.ts is not under the verified sources, and per spec §4.1
the stopped event "directly wraps reason and exception", "tagged with the
fixed thread identifier". -/
inductive ProtocolEvent where
  | output (body : OutputEventBody)
  | loadedSource (reason : SourceLoadReason) (source : ClientSource)
  | breakpoint (reason : String) (breakpoint : ClientBreakpoint)
  | stopped (reason : ReasonType) (threadId : Nat) (exception : Option RemoteObject)
deriving DecidableEq, Repr

/-- A conversion failure (a converter throwing or its promise rejecting). -/
abbrev ConvErr := String

/-- Handles registry.  Modelled from the spec: handlesRegistry.ts is not
under the verified sources; per spec §4.4 it issues stable opaque integer
handles, idempotently per entity identity, scoped to one session.  We record
the registered source identities in minting order; an identity's handle is
its index. -/
structure HandlesRegistry where
  sources : List String
deriving DecidableEq, Repr

/-- First index of `id` in a list of registered identities. -/
def lookupIdx (id : String) : List String → Option Nat
  | [] => none
  | x :: xs => if x = id then some 0 else (lookupIdx id xs).map (fun n => n + 1)

/-- Modelled from the spec (§4.4): `register(entity identity) → handle`,
idempotent — the same identity always yields the same handle; a fresh
identity mints a new handle. -/
def HandlesRegistry.registerSource (reg : HandlesRegistry) (id : String) :
    Nat × HandlesRegistry :=
  match lookupIdx id reg.sources with
  | some idx => (idx, reg)
  | none => (reg.sources.length, ⟨reg.sources ++ [id]⟩)

/-- The bundle of field-converter collaborators the reporter invokes.  Each
converter may consult and update the shared handles registry and may fail
(throw / reject); the registry it returns is its state on both success and
failure, mirroring mutation of the shared registry object. -/
structure Converters where
  toLocationInSource :
    LocationInLoadedSource → OutputEventBody → HandlesRegistry →
      Except ConvErr OutputEventBody × HandlesRegistry
  toSource :
    ILoadedSource → HandlesRegistry →
      Except ConvErr ClientSource × HandlesRegistry
  toBreakpoint :
    IBPRecipeStatus → HandlesRegistry →
      Except ConvErr ClientBreakpoint × HandlesRegistry

/-- Modelled from the spec (§4.2): the source converter produces the
client-shaped source, minting (or looking up) a handle via the handles
registry when the source has no addressable path, and passing the path
through when it has one. -/
def SourceToClientConverter.toSource (source : ILoadedSource)
    (reg : HandlesRegistry) : Except ConvErr ClientSource × HandlesRegistry :=
  match source.path with
  | some p =>
      (Except.ok { name := some source.identifier, path := some p, sourceReference := none }, reg)
  | none =>
      let r := reg.registerSource source.identifier
      (Except.ok { name := some source.identifier, path := none, sourceReference := some r.1 }, r.2)

/-- Modelled from the spec (§4.2): the location converter mutates the event
body in place, "attaching resolved source/line/column fields", consulting
the handles registry as needed (here: through the source conversion of the
location's source). -/
def LocationInSourceToClientConverter.toLocationInSource
    (loc : LocationInLoadedSource) (body : OutputEventBody)
    (reg : HandlesRegistry) : Except ConvErr OutputEventBody × HandlesRegistry :=
  match SourceToClientConverter.toSource loc.source reg with
  | (Except.ok s, reg') =>
      (Except.ok { body with
          source := some s
          line := some loc.lineNumber
          column := some loc.columnNumber }, reg')
  | (Except.error e, reg') => (Except.error e, reg')

/-- Modelled from the spec (§4.2, §8): the breakpoint-status converter
produces a client breakpoint reflecting the verification outcome and the
resolved line. -/
def BPRecipieStatusToClientConverter.toBreakpoint (st : IBPRecipeStatus)
    (reg : HandlesRegistry) : Except ConvErr ClientBreakpoint × HandlesRegistry :=
  (Except.ok { verified := st.verified, line := st.resolvedLine, message := st.message }, reg)

/-- The converters the reporter constructs for itself (lines 67-70 of the
source), instantiated with the spec-modelled collaborator behaviours. -/
def realConverters : Converters where
  toLocationInSource := LocationInSourceToClientConverter.toLocationInSource
  toSource := SourceToClientConverter.toSource
  toBreakpoint := BPRecipieStatusToClientConverter.toBreakpoint

/-- Modelled from the spec (§4.3): the exception text formatter renders the
ordered sequence of frame descriptions into one display string; pure and
deterministic, empty input yields an empty string. -/
def ExceptionStackTracePrinter.toStackTraceString
    (trace : List IFormattedExceptionLineDescription) : String :=
  String.intercalate "\n" (trace.map (fun f => f.description))

/-- Modelled from the spec: `ChromeDebugLogic.THREAD_ID`, "the fixed thread
identifier used by this system (single-threaded debuggee model)". -/
def ChromeDebugLogic.THREAD_ID : Nat := 1

/-- Caller-visible outcome of one reporter operation: whether the pending
operation succeeded or failed, the params object as the caller sees it after
the call, the handles registry after the call, and the events handed to
`Session.sendEvent` during the call, in dispatch order. -/
structure SendOutcome (π : Type) where
  result : Except ConvErr Unit
  params : π
  registry : HandlesRegistry
  sentEvents : List ProtocolEvent
deriving Repr

/-- The event body `sendOutput` has built just before the location step:
`new OutputEvent(params.output, params.category)` followed by
`if (params.variablesReference) event.body.variablesReference = ...`
(JavaScript truthiness: the reference is attached only when supplied and
non-zero). -/
def EventsToClientReporter.sendOutputBodyBeforeLocation
    (params : IOutputParameters) : OutputEventBody :=
  let body : OutputEventBody := { output := params.output, category := params.category }
  match params.variablesReference with
  | some v => if v = 0 then body else { body with variablesReference := some v }
  | none => body

/-- Embedding of `EventsToClientReporter.sendOutput` (source lines 78-90):
build the base event from output/category, attach a truthy
`variablesReference`, let the location converter mutate the body when a
location was supplied, then dispatch the event.  A converter throw aborts
the call before the dispatch. -/
def EventsToClientReporter.sendOutput (c : Converters)
    (params : IOutputParameters) (reg : HandlesRegistry) :
    SendOutcome IOutputParameters :=
  let body := EventsToClientReporter.sendOutputBodyBeforeLocation params
  match params.location with
  | some loc =>
      match c.toLocationInSource loc body reg with
      | (Except.ok body', reg') =>
          { result := Except.ok ()
            params := params
            registry := reg'
            sentEvents := [ProtocolEvent.output body'] }
      | (Except.error e, reg') =>
          { result := Except.error e
            params := params
            registry := reg'
            sentEvents := [] }
  | none =>
      { result := Except.ok ()
        params := params
        registry := reg
        sentEvents := [ProtocolEvent.output body] }

/-- Embedding of `EventsToClientReporter.sendSourceWasLoaded` (source lines
92-97): convert the source, build the LoadedSource event with the request's
reason and the converted source, dispatch.  A rejected conversion rejects
the returned promise and nothing is dispatched. -/
def EventsToClientReporter.sendSourceWasLoaded (c : Converters)
    (params : ISourceWasLoadedParameters) (reg : HandlesRegistry) :
    SendOutcome ISourceWasLoadedParameters :=
  match c.toSource params.source reg with
  | (Except.ok clientSource, reg') =>
      { result := Except.ok ()
        params := params
        registry := reg'
        sentEvents := [ProtocolEvent.loadedSource params.reason clientSource] }
  | (Except.error e, reg') =>
      { result := Except.error e
        params := params
        registry := reg'
        sentEvents := [] }

/-- Embedding of `EventsToClientReporter.sendBPStatusChanged` (source lines
99-104): convert the breakpoint-recipe status, build the Breakpoint event
with the request's reason and the converted breakpoint, dispatch.  A
rejected conversion rejects the returned promise and nothing is
dispatched. -/
def EventsToClientReporter.sendBPStatusChanged (c : Converters)
    (params : IBPStatusChangedParameters) (reg : HandlesRegistry) :
    SendOutcome IBPStatusChangedParameters :=
  match c.toBreakpoint params.bpRecipeStatus reg with
  | (Except.ok breakpointStatus, reg') =>
      { result := Except.ok ()
        params := params
        registry := reg'
        sentEvents := [ProtocolEvent.breakpoint params.reason breakpointStatus] }
  | (Except.error e, reg') =>
      { result := Except.error e
        params := params
        registry := reg'
        sentEvents := [] }

/-- Embedding of `EventsToClientReporter.sendExceptionThrown` (source lines
106-112): render the stack trace to one display string and delegate to
`sendOutput` with the request's category and location and no variables
reference. -/
def EventsToClientReporter.sendExceptionThrown (c : Converters)
    (params : IExceptionThrownParameters) (reg : HandlesRegistry) :
    SendOutcome IExceptionThrownParameters :=
  let inner := EventsToClientReporter.sendOutput c
    { output := ExceptionStackTracePrinter.toStackTraceString params.exceptionStackTrace
      category := params.category
      variablesReference := none
      location := params.location } reg
  { result := inner.result
    params := params
    registry := inner.registry
    sentEvents := inner.sentEvents }

/-- Embedding of `EventsToClientReporter.sendDebuggeeIsStopped` (source
lines 114-116): dispatch a single Stopped event wrapping the request's
reason and exception, tagged with the fixed thread identifier. -/
def EventsToClientReporter.sendDebuggeeIsStopped
    (params : IDebuggeeIsStoppedParameters) (reg : HandlesRegistry) :
    SendOutcome IDebuggeeIsStoppedParameters :=
  { result := Except.ok ()
    params := params
    registry := reg
    sentEvents :=
      [ProtocolEvent.stopped params.reason ChromeDebugLogic.THREAD_ID params.exception] }

/-- The parameters `sendExceptionThrown` passes to `sendOutput` (the object
literal at source lines 107-111): formatted text, the request's category and
location, and no variables reference. -/
def EventsToClientReporter.delegatedOutputParams
    (params : IExceptionThrownParameters) : IOutputParameters :=
  { output := ExceptionStackTracePrinter.toStackTraceString params.exceptionStackTrace
    category := params.category
    variablesReference := none
    location := params.location }

/-- JavaScript truthiness of the optional `variablesReference` field: the
reference the event body ends up carrying — the supplied value verbatim when
present and non-zero, absent otherwise. -/
def truthyRef : Option Nat → Option Nat
  | some v => if v = 0 then none else some v
  | none => none

/-- A converter bundle in which every conversion fails; used to exercise the
failure paths. -/
def failingConverters : Converters where
  toLocationInSource := fun _ _ reg => (Except.error "location conversion failed", reg)
  toSource := fun _ reg => (Except.error "source conversion failed", reg)
  toBreakpoint := fun _ reg => (Except.error "breakpoint status conversion failed", reg)

/-- An empty handles registry (session start). -/
def sampleRegistry : HandlesRegistry := ⟨[]⟩

/-- A memory-only loaded source: no addressable path. -/
def sampleMemorySource : ILoadedSource := { identifier := "eval://1", path := none }

/-- A concrete location inside the memory-only source. -/
def sampleLocation : LocationInLoadedSource :=
  { source := sampleMemorySource, lineNumber := 3, columnNumber := 7 }

/-- A concrete output request carrying both optional fields. -/
def sampleOutputParams : IOutputParameters :=
  { output := "hello", category := "stdout",
    variablesReference := some 5, location := some sampleLocation }

/-- A concrete source-loaded request for the memory-only source. -/
def sampleSourceParams : ISourceWasLoadedParameters :=
  { reason := SourceLoadReason.new, source := sampleMemorySource }

/-- A concrete breakpoint-recipe status: verified, resolved at line 42. -/
def sampleBPStatus : IBPRecipeStatus :=
  { verified := true, resolvedLine := some 42, message := none }

/-- A concrete breakpoint-status request with reason "changed". -/
def sampleBPParams : IBPStatusChangedParameters :=
  { reason := "changed", bpRecipeStatus := sampleBPStatus }

/-- A concrete exception request with a one-frame stack trace and a location. -/
def sampleExceptionParams : IExceptionThrownParameters :=
  { exceptionStackTrace := [⟨"at foo (a.js:1:1)"⟩],
    category := "stderr", location := some sampleLocation }

/-- A concrete debuggee-stopped request. -/
def sampleStoppedParams : IDebuggeeIsStoppedParameters :=
  { reason := "exception", exception := some ⟨some "boom"⟩ }

/-- The body of the Output event `sendExceptionThrown` emits for
`sampleExceptionParams` starting from the empty registry. -/
def sampleExceptionBody : OutputEventBody :=
  { output := "at foo (a.js:1:1)", category := "stderr",
    variablesReference := none,
    source := some { name := some "eval://1", path := none, sourceReference := some 0 },
    line := some 3, column := some 7 }

/-- The body of the Output event `sendOutput` emits for `sampleOutputParams`
starting from the empty registry. -/
def sampleOutputBody : OutputEventBody :=
  { output := "hello", category := "stdout",
    variablesReference := some 5,
    source := some { name := some "eval://1", path := none, sourceReference := some 0 },
    line := some 3, column := some 7 }

/-- The client source the spec-modelled source converter produces for
`sampleMemorySource` in an empty registry. -/
def sampleClientSource : ClientSource :=
  { name := some "eval://1", path := none, sourceReference := some 0 }

/-! Unfolding and collaborator lemmas shared by the claim theorems. -/

theorem sendOutput_of_location_none (c : Converters) (p : IOutputParameters)
    (reg : HandlesRegistry) (hp : p.location = none) :
    EventsToClientReporter.sendOutput c p reg =
      { result := Except.ok (), params := p, registry := reg,
        sentEvents :=
          [ProtocolEvent.output (EventsToClientReporter.sendOutputBodyBeforeLocation p)] } := by
  unfold EventsToClientReporter.sendOutput
  rw [hp]

theorem sendOutput_of_location_some_ok (c : Converters) (p : IOutputParameters)
    (loc : LocationInLoadedSource) (reg reg' : HandlesRegistry)
    (body' : OutputEventBody) (hp : p.location = some loc)
    (hc : c.toLocationInSource loc
        (EventsToClientReporter.sendOutputBodyBeforeLocation p) reg =
      (Except.ok body', reg')) :
    EventsToClientReporter.sendOutput c p reg =
      { result := Except.ok (), params := p, registry := reg',
        sentEvents := [ProtocolEvent.output body'] } := by
  unfold EventsToClientReporter.sendOutput
  rw [hp]
  simp only [hc]

theorem sendOutput_of_location_some_error (c : Converters) (p : IOutputParameters)
    (loc : LocationInLoadedSource) (reg reg' : HandlesRegistry)
    (e : ConvErr) (hp : p.location = some loc)
    (hc : c.toLocationInSource loc
        (EventsToClientReporter.sendOutputBodyBeforeLocation p) reg =
      (Except.error e, reg')) :
    EventsToClientReporter.sendOutput c p reg =
      { result := Except.error e, params := p, registry := reg',
        sentEvents := [] } := by
  unfold EventsToClientReporter.sendOutput
  rw [hp]
  simp only [hc]

theorem sendSourceWasLoaded_of_ok (c : Converters) (p : ISourceWasLoadedParameters)
    (reg reg' : HandlesRegistry) (s : ClientSource)
    (hc : c.toSource p.source reg = (Except.ok s, reg')) :
    EventsToClientReporter.sendSourceWasLoaded c p reg =
      { result := Except.ok (), params := p, registry := reg',
        sentEvents := [ProtocolEvent.loadedSource p.reason s] } := by
  unfold EventsToClientReporter.sendSourceWasLoaded
  simp only [hc]

theorem sendSourceWasLoaded_of_error (c : Converters) (p : ISourceWasLoadedParameters)
    (reg reg' : HandlesRegistry) (e : ConvErr)
    (hc : c.toSource p.source reg = (Except.error e, reg')) :
    EventsToClientReporter.sendSourceWasLoaded c p reg =
      { result := Except.error e, params := p, registry := reg', sentEvents := [] } := by
  unfold EventsToClientReporter.sendSourceWasLoaded
  simp only [hc]

theorem sendBPStatusChanged_of_ok (c : Converters) (p : IBPStatusChangedParameters)
    (reg reg' : HandlesRegistry) (b : ClientBreakpoint)
    (hc : c.toBreakpoint p.bpRecipeStatus reg = (Except.ok b, reg')) :
    EventsToClientReporter.sendBPStatusChanged c p reg =
      { result := Except.ok (), params := p, registry := reg',
        sentEvents := [ProtocolEvent.breakpoint p.reason b] } := by
  unfold EventsToClientReporter.sendBPStatusChanged
  simp only [hc]

theorem sendBPStatusChanged_of_error (c : Converters) (p : IBPStatusChangedParameters)
    (reg reg' : HandlesRegistry) (e : ConvErr)
    (hc : c.toBreakpoint p.bpRecipeStatus reg = (Except.error e, reg')) :
    EventsToClientReporter.sendBPStatusChanged c p reg =
      { result := Except.error e, params := p, registry := reg', sentEvents := [] } := by
  unfold EventsToClientReporter.sendBPStatusChanged
  simp only [hc]

theorem sendExceptionThrown_eq (c : Converters) (p : IExceptionThrownParameters)
    (reg : HandlesRegistry) :
    EventsToClientReporter.sendExceptionThrown c p reg =
      { result := (EventsToClientReporter.sendOutput c
            (EventsToClientReporter.delegatedOutputParams p) reg).result
        params := p
        registry := (EventsToClientReporter.sendOutput c
            (EventsToClientReporter.delegatedOutputParams p) reg).registry
        sentEvents := (EventsToClientReporter.sendOutput c
            (EventsToClientReporter.delegatedOutputParams p) reg).sentEvents } :=
  rfl

theorem sendOutputBodyBeforeLocation_fields (p : IOutputParameters) :
    EventsToClientReporter.sendOutputBodyBeforeLocation p =
      { output := p.output, category := p.category,
        variablesReference := truthyRef p.variablesReference } := by
  unfold EventsToClientReporter.sendOutputBodyBeforeLocation truthyRef
  cases p.variablesReference with
  | none => rfl
  | some v =>
    by_cases hv : v = 0 <;> simp [hv]

theorem toSource_of_path_some (src : ILoadedSource) (reg : HandlesRegistry)
    (pa : String) (h : src.path = some pa) :
    SourceToClientConverter.toSource src reg =
      (Except.ok { name := some src.identifier, path := some pa, sourceReference := none },
       reg) := by
  unfold SourceToClientConverter.toSource
  rw [h]

theorem toSource_of_path_none (src : ILoadedSource) (reg : HandlesRegistry)
    (h : src.path = none) :
    SourceToClientConverter.toSource src reg =
      (Except.ok { name := some src.identifier, path := none,
                   sourceReference := some (reg.registerSource src.identifier).1 },
       (reg.registerSource src.identifier).2) := by
  unfold SourceToClientConverter.toSource
  rw [h]

theorem toSource_real_ok (src : ILoadedSource) (reg : HandlesRegistry) :
    ∃ s reg', SourceToClientConverter.toSource src reg = (Except.ok s, reg') := by
  cases h : src.path with
  | some pa => exact ⟨_, _, toSource_of_path_some src reg pa h⟩
  | none => exact ⟨_, _, toSource_of_path_none src reg h⟩

theorem toLocationInSource_real (loc : LocationInLoadedSource)
    (body : OutputEventBody) (reg : HandlesRegistry) :
    ∃ s reg',
      LocationInSourceToClientConverter.toLocationInSource loc body reg =
        (Except.ok { body with source := some s, line := some loc.lineNumber,
                               column := some loc.columnNumber }, reg') := by
  obtain ⟨s, reg', hs⟩ := toSource_real_ok loc.source reg
  refine ⟨s, reg', ?_⟩
  unfold LocationInSourceToClientConverter.toLocationInSource
  rw [hs]

theorem sendOutput_real_spec (p : IOutputParameters) (reg : HandlesRegistry) :
    ∃ body,
      (EventsToClientReporter.sendOutput realConverters p reg).sentEvents =
        [ProtocolEvent.output body] ∧
      body.output = p.output ∧
      body.category = p.category ∧
      body.variablesReference = truthyRef p.variablesReference ∧
      (p.location = none →
        body.source = none ∧ body.line = none ∧ body.column = none) ∧
      (∀ loc, p.location = some loc →
        body.source ≠ none ∧ body.line = some loc.lineNumber ∧
        body.column = some loc.columnNumber) := by
  cases hp : p.location with
  | none =>
    refine ⟨{ output := p.output, category := p.category,
              variablesReference := truthyRef p.variablesReference },
            ?_, rfl, rfl, rfl, ?_, ?_⟩
    · rw [sendOutput_of_location_none realConverters p reg hp,
          sendOutputBodyBeforeLocation_fields]
    · intro _
      exact ⟨rfl, rfl, rfl⟩
    · intro loc hl
      simp at hl
  | some loc =>
    obtain ⟨s, reg', hconv⟩ := toLocationInSource_real loc
      (EventsToClientReporter.sendOutputBodyBeforeLocation p) reg
    refine ⟨{ output := p.output, category := p.category,
              variablesReference := truthyRef p.variablesReference,
              source := some s, line := some loc.lineNumber,
              column := some loc.columnNumber },
            ?_, rfl, rfl, rfl, ?_, ?_⟩
    · rw [sendOutput_of_location_some_ok realConverters p loc reg reg' _ hp hconv,
          sendOutputBodyBeforeLocation_fields]
    · intro h0
      simp at h0
    · intro loc' hl
      injection hl with he
      subst he
      exact ⟨by simp, rfl, rfl⟩

theorem lookupIdx_append_self (id : String) (l : List String)
    (h : lookupIdx id l = none) :
    lookupIdx id (l ++ [id]) = some l.length := by
  induction l with
  | nil => simp [lookupIdx]
  | cons x xs ih =>
    simp only [lookupIdx] at h
    by_cases hx : x = id
    · rw [if_pos hx] at h
      simp at h
    · rw [if_neg hx] at h
      cases hxs : lookupIdx id xs with
      | some n =>
        rw [hxs] at h
        simp at h
      | none =>
        have hrec : lookupIdx id (xs ++ [id]) = some xs.length := ih hxs
        show lookupIdx id (x :: (xs ++ [id])) = some (x :: xs).length
        simp only [lookupIdx, if_neg hx, hrec]
        rfl

theorem registerSource_idem (reg : HandlesRegistry) (id : String) :
    (reg.registerSource id).2.registerSource id = reg.registerSource id := by
  unfold HandlesRegistry.registerSource
  cases hl : lookupIdx id reg.sources with
  | some idx => simp [hl]
  | none => simp [lookupIdx_append_self id reg.sources hl]

theorem sendOutput_ok_length_one (c : Converters) (p : IOutputParameters)
    (reg : HandlesRegistry)
    (h : (EventsToClientReporter.sendOutput c p reg).result = Except.ok ()) :
    (EventsToClientReporter.sendOutput c p reg).sentEvents.length = 1 := by
  cases hp : p.location with
  | none =>
    rw [sendOutput_of_location_none c p reg hp]
    rfl
  | some loc =>
    cases hc : c.toLocationInSource loc
        (EventsToClientReporter.sendOutputBodyBeforeLocation p) reg with
    | mk res reg' =>
      cases res with
      | ok body' =>
        rw [sendOutput_of_location_some_ok c p loc reg reg' body' hp hc]
        rfl
      | error e =>
        rw [sendOutput_of_location_some_error c p loc reg reg' e hp hc] at h
        simp at h

theorem sendSourceWasLoaded_ok_length_one (c : Converters)
    (p : ISourceWasLoadedParameters) (reg : HandlesRegistry)
    (h : (EventsToClientReporter.sendSourceWasLoaded c p reg).result = Except.ok ()) :
    (EventsToClientReporter.sendSourceWasLoaded c p reg).sentEvents.length = 1 := by
  cases hc : c.toSource p.source reg with
  | mk res reg' =>
    cases res with
    | ok s =>
      rw [sendSourceWasLoaded_of_ok c p reg reg' s hc]
      rfl
    | error e =>
      rw [sendSourceWasLoaded_of_error c p reg reg' e hc] at h
      simp at h

theorem sendBPStatusChanged_ok_length_one (c : Converters)
    (p : IBPStatusChangedParameters) (reg : HandlesRegistry)
    (h : (EventsToClientReporter.sendBPStatusChanged c p reg).result = Except.ok ()) :
    (EventsToClientReporter.sendBPStatusChanged c p reg).sentEvents.length = 1 := by
  cases hc : c.toBreakpoint p.bpRecipeStatus reg with
  | mk res reg' =>
    cases res with
    | ok b =>
      rw [sendBPStatusChanged_of_ok c p reg reg' b hc]
      rfl
    | error e =>
      rw [sendBPStatusChanged_of_error c p reg reg' e hc] at h
      simp at h

theorem truthyRef_eq_some (o : Option Nat) (v : Nat) :
    truthyRef o = some v ↔ o = some v ∧ v ≠ 0 := by
  cases o with
  | none => simp [truthyRef]
  | some w =>
    by_cases hw : w = 0
    · subst hw
      simp [truthyRef, eq_comm]
    · simp only [truthyRef, if_neg hw, Option.some.injEq]
      constructor
      · intro hv
        exact ⟨hv, fun h0 => hw (hv.trans h0)⟩
      · intro hv
        exact hv.1

theorem realConverters_preserve_vr (loc : LocationInLoadedSource)
    (body : OutputEventBody) (reg : HandlesRegistry)
    (body' : OutputEventBody) (reg' : HandlesRegistry)
    (h : realConverters.toLocationInSource loc body reg = (Except.ok body', reg')) :
    body'.variablesReference = body.variablesReference := by
  obtain ⟨s, reg2, hs⟩ := toLocationInSource_real loc body reg
  have h2 : realConverters.toLocationInSource loc body reg =
      (Except.ok { body with source := some s, line := some loc.lineNumber,
                             column := some loc.columnNumber }, reg2) := hs
  rw [h2] at h
  injection h with he hr
  injection he with hb
  rw [← hb]

/-! Claim theorems. -/

/-- C1: for every well-formed domain-event request on which every invoked
converter succeeds (equivalently, on which the operation's pending result is
success — the result is success exactly when the invoked converters
succeeded), each of the five reporter operations hands exactly one event to
`Session.sendEvent` — never zero times and never more than once;
`sendDebuggeeIsStopped` invokes no converter and always dispatches once. -/
theorem sendEvent_exactly_once :
    (∀ (c : Converters) (p : IOutputParameters) (reg : HandlesRegistry),
        (EventsToClientReporter.sendOutput c p reg).result = Except.ok () →
        (EventsToClientReporter.sendOutput c p reg).sentEvents.length = 1) ∧
    (∀ (c : Converters) (p : ISourceWasLoadedParameters) (reg : HandlesRegistry),
        (EventsToClientReporter.sendSourceWasLoaded c p reg).result = Except.ok () →
        (EventsToClientReporter.sendSourceWasLoaded c p reg).sentEvents.length = 1) ∧
    (∀ (c : Converters) (p : IBPStatusChangedParameters) (reg : HandlesRegistry),
        (EventsToClientReporter.sendBPStatusChanged c p reg).result = Except.ok () →
        (EventsToClientReporter.sendBPStatusChanged c p reg).sentEvents.length = 1) ∧
    (∀ (c : Converters) (p : IExceptionThrownParameters) (reg : HandlesRegistry),
        (EventsToClientReporter.sendExceptionThrown c p reg).result = Except.ok () →
        (EventsToClientReporter.sendExceptionThrown c p reg).sentEvents.length = 1) ∧
    (∀ (p : IDebuggeeIsStoppedParameters) (reg : HandlesRegistry),
        (EventsToClientReporter.sendDebuggeeIsStopped p reg).sentEvents.length = 1) := by
  refine ⟨sendOutput_ok_length_one, sendSourceWasLoaded_ok_length_one,
    sendBPStatusChanged_ok_length_one, ?_, fun p reg => rfl⟩
  intro c p reg h
  exact sendOutput_ok_length_one c (EventsToClientReporter.delegatedOutputParams p) reg h

/-- Witness for C1: each of the five operations dispatches exactly one event
on a concrete request with the modelled converters, which all succeed. -/
theorem sendEvent_exactly_once_witness :
    (EventsToClientReporter.sendOutput realConverters sampleOutputParams
      sampleRegistry).sentEvents.length = 1 ∧
    (EventsToClientReporter.sendSourceWasLoaded realConverters sampleSourceParams
      sampleRegistry).sentEvents.length = 1 ∧
    (EventsToClientReporter.sendBPStatusChanged realConverters sampleBPParams
      sampleRegistry).sentEvents.length = 1 ∧
    (EventsToClientReporter.sendExceptionThrown realConverters sampleExceptionParams
      sampleRegistry).sentEvents.length = 1 ∧
    (EventsToClientReporter.sendDebuggeeIsStopped sampleStoppedParams
      sampleRegistry).sentEvents.length = 1 :=
  ⟨sendEvent_exactly_once.1 realConverters sampleOutputParams sampleRegistry rfl,
   sendEvent_exactly_once.2.1 realConverters sampleSourceParams sampleRegistry rfl,
   sendEvent_exactly_once.2.2.1 realConverters sampleBPParams sampleRegistry rfl,
   sendEvent_exactly_once.2.2.2.1 realConverters sampleExceptionParams sampleRegistry rfl,
   sendEvent_exactly_once.2.2.2.2 sampleStoppedParams sampleRegistry⟩

/-- C2: for every DebuggeeStoppedRequest, whatever the reason and whether an
exception is present, `sendDebuggeeIsStopped` dispatches exactly one Stopped
event whose thread identifier is the fixed `ChromeDebugLogic.THREAD_ID`. -/
theorem sendDebuggeeIsStopped_fixed_thread (p : IDebuggeeIsStoppedParameters)
    (reg : HandlesRegistry) :
    (EventsToClientReporter.sendDebuggeeIsStopped p reg).sentEvents =
      [ProtocolEvent.stopped p.reason ChromeDebugLogic.THREAD_ID p.exception] :=
  rfl

/-- C7: for every BreakpointStatusRequest whose status conversion succeeds,
`sendBPStatusChanged` dispatches exactly one Breakpoint event whose reason is
the request's reason and whose breakpoint is the converter's client
breakpoint for the request's `bpRecipeStatus`. -/
theorem sendBPStatusChanged_emits_breakpoint_event (c : Converters)
    (p : IBPStatusChangedParameters) (reg reg' : HandlesRegistry)
    (b : ClientBreakpoint)
    (h : c.toBreakpoint p.bpRecipeStatus reg = (Except.ok b, reg')) :
    EventsToClientReporter.sendBPStatusChanged c p reg =
      { result := Except.ok (), params := p, registry := reg',
        sentEvents := [ProtocolEvent.breakpoint p.reason b] } :=
  sendBPStatusChanged_of_ok c p reg reg' b h

/-- Witness for C7: for bpRecipeStatus verified at line 42 and reason
"changed", one Breakpoint event with reason "changed" reflecting
verified, line 42. -/
theorem sendBPStatusChanged_emits_breakpoint_event_witness :
    EventsToClientReporter.sendBPStatusChanged realConverters sampleBPParams
        sampleRegistry =
      { result := Except.ok (), params := sampleBPParams, registry := sampleRegistry,
        sentEvents := [ProtocolEvent.breakpoint "changed"
          { verified := true, line := some 42, message := none }] } :=
  sendBPStatusChanged_emits_breakpoint_event realConverters sampleBPParams
    sampleRegistry sampleRegistry { verified := true, line := some 42, message := none } rfl

/-- C8: for every SourceLoadedRequest whose source conversion succeeds,
`sendSourceWasLoaded` dispatches exactly one LoadedSource event whose reason
is the request's reason and whose source is the converter's client-shaped
projection of the request's source. -/
theorem sendSourceWasLoaded_emits_loadedSource_event (c : Converters)
    (p : ISourceWasLoadedParameters) (reg reg' : HandlesRegistry)
    (s : ClientSource)
    (h : c.toSource p.source reg = (Except.ok s, reg')) :
    EventsToClientReporter.sendSourceWasLoaded c p reg =
      { result := Except.ok (), params := p, registry := reg',
        sentEvents := [ProtocolEvent.loadedSource p.reason s] } :=
  sendSourceWasLoaded_of_ok c p reg reg' s h

/-- Witness for C8: loading a memory-only source dispatches one LoadedSource
event with reason `new` and the converter's projection (handle 0 freshly
minted). -/
theorem sendSourceWasLoaded_emits_loadedSource_event_witness :
    EventsToClientReporter.sendSourceWasLoaded realConverters sampleSourceParams
        sampleRegistry =
      { result := Except.ok (), params := sampleSourceParams,
        registry := ⟨["eval://1"]⟩,
        sentEvents := [ProtocolEvent.loadedSource SourceLoadReason.new
          sampleClientSource] } :=
  sendSourceWasLoaded_emits_loadedSource_event realConverters sampleSourceParams
    sampleRegistry ⟨["eval://1"]⟩ sampleClientSource rfl

/-- C9: no reporter operation mutates its input request object — after any
of the five send calls returns or fails, the caller-visible params object is
the one that was passed in, unchanged; only the freshly built protocol event
is assembled during dispatch. -/
theorem send_operations_preserve_params :
    (∀ (c : Converters) (p : IOutputParameters) (reg : HandlesRegistry),
        (EventsToClientReporter.sendOutput c p reg).params = p) ∧
    (∀ (c : Converters) (p : ISourceWasLoadedParameters) (reg : HandlesRegistry),
        (EventsToClientReporter.sendSourceWasLoaded c p reg).params = p) ∧
    (∀ (c : Converters) (p : IBPStatusChangedParameters) (reg : HandlesRegistry),
        (EventsToClientReporter.sendBPStatusChanged c p reg).params = p) ∧
    (∀ (c : Converters) (p : IExceptionThrownParameters) (reg : HandlesRegistry),
        (EventsToClientReporter.sendExceptionThrown c p reg).params = p) ∧
    (∀ (p : IDebuggeeIsStoppedParameters) (reg : HandlesRegistry),
        (EventsToClientReporter.sendDebuggeeIsStopped p reg).params = p) := by
  refine ⟨?_, ?_, ?_, ?_, fun p reg => rfl⟩
  · intro c p reg
    cases hp : p.location with
    | none => rw [sendOutput_of_location_none c p reg hp]
    | some loc =>
      cases hc : c.toLocationInSource loc
          (EventsToClientReporter.sendOutputBodyBeforeLocation p) reg with
      | mk res reg' =>
        cases res with
        | ok body' => rw [sendOutput_of_location_some_ok c p loc reg reg' body' hp hc]
        | error e => rw [sendOutput_of_location_some_error c p loc reg reg' e hp hc]
  · intro c p reg
    cases hc : c.toSource p.source reg with
    | mk res reg' =>
      cases res with
      | ok s => rw [sendSourceWasLoaded_of_ok c p reg reg' s hc]
      | error e => rw [sendSourceWasLoaded_of_error c p reg reg' e hc]
  · intro c p reg
    cases hc : c.toBreakpoint p.bpRecipeStatus reg with
    | mk res reg' =>
      cases res with
      | ok b => rw [sendBPStatusChanged_of_ok c p reg reg' b hc]
      | error e => rw [sendBPStatusChanged_of_error c p reg reg' e hc]
  · intro c p reg
    rw [sendExceptionThrown_eq]

/-- C3: the Output event body carries `variablesReference` exactly when the
caller supplied a non-zero reference (attached verbatim), carries location
fields exactly when the caller supplied a location, and with neither it
contains only the `output`/`category` derived fields. -/
theorem sendOutput_field_presence (p : IOutputParameters) (reg : HandlesRegistry)
    (body : OutputEventBody)
    (h : (EventsToClientReporter.sendOutput realConverters p reg).sentEvents =
      [ProtocolEvent.output body]) :
    body.output = p.output ∧
    body.category = p.category ∧
    body.variablesReference = truthyRef p.variablesReference ∧
    (∀ v, body.variablesReference = some v ↔ p.variablesReference = some v ∧ v ≠ 0) ∧
    (p.location = none →
      body.source = none ∧ body.line = none ∧ body.column = none) ∧
    (∀ loc, p.location = some loc →
      body.source ≠ none ∧ body.line = some loc.lineNumber ∧
      body.column = some loc.columnNumber) := by
  obtain ⟨b, hb, h1, h2, h3, h4, h5⟩ := sendOutput_real_spec p reg
  rw [hb] at h
  injection h with hhead _
  injection hhead with hbody
  subst hbody
  refine ⟨h1, h2, h3, ?_, h4, h5⟩
  intro v
  rw [h3]
  exact truthyRef_eq_some p.variablesReference v

/-- Witness for C3: on a concrete request carrying reference 5 and a
location, the emitted body carries the reference verbatim and the location
fields. -/
theorem sendOutput_field_presence_witness :
    sampleOutputBody.output = "hello" ∧
    sampleOutputBody.category = "stdout" ∧
    sampleOutputBody.variablesReference = some 5 ∧
    sampleOutputBody.line = some 3 ∧
    sampleOutputBody.column = some 7 ∧
    sampleOutputBody.source ≠ none :=
  have hmain := sendOutput_field_presence sampleOutputParams sampleRegistry
    sampleOutputBody rfl
  have hloc := hmain.2.2.2.2.2 sampleLocation rfl
  ⟨hmain.1, hmain.2.1, hmain.2.2.1, hloc.2.1, hloc.2.2, hloc.1⟩

/-- C4: `sendExceptionThrown` delegates to `sendOutput`: its result,
registry effect and dispatched events are exactly those of `sendOutput` on
the delegated request (formatted stack-trace text, same category, same
location, no variables reference); in particular the emitted event is an
Output event whose text is the formatter's rendering and whose category is
the request's category. -/
theorem sendExceptionThrown_is_output_delegation (c : Converters)
    (p : IExceptionThrownParameters) (reg : HandlesRegistry) :
    ((EventsToClientReporter.sendExceptionThrown c p reg).result =
        (EventsToClientReporter.sendOutput c
          (EventsToClientReporter.delegatedOutputParams p) reg).result ∧
      (EventsToClientReporter.sendExceptionThrown c p reg).registry =
        (EventsToClientReporter.sendOutput c
          (EventsToClientReporter.delegatedOutputParams p) reg).registry ∧
      (EventsToClientReporter.sendExceptionThrown c p reg).sentEvents =
        (EventsToClientReporter.sendOutput c
          (EventsToClientReporter.delegatedOutputParams p) reg).sentEvents) ∧
    (∀ body,
      (EventsToClientReporter.sendExceptionThrown realConverters p reg).sentEvents =
        [ProtocolEvent.output body] →
      body.output =
        ExceptionStackTracePrinter.toStackTraceString p.exceptionStackTrace ∧
      body.category = p.category) := by
  refine ⟨⟨rfl, rfl, rfl⟩, ?_⟩
  intro body h
  have h' : (EventsToClientReporter.sendOutput realConverters
      (EventsToClientReporter.delegatedOutputParams p) reg).sentEvents =
      [ProtocolEvent.output body] := h
  obtain ⟨b, hb, h1, h2, _⟩ :=
    sendOutput_real_spec (EventsToClientReporter.delegatedOutputParams p) reg
  rw [hb] at h'
  injection h' with hhead _
  injection hhead with hbody
  subst hbody
  exact ⟨h1, h2⟩

/-- Witness for C4: the concrete exception request with one stack frame and
category "stderr" produces the same events as the delegated output request,
and the emitted body carries the rendered text and category. -/
theorem sendExceptionThrown_is_output_delegation_witness :
    (EventsToClientReporter.sendExceptionThrown realConverters
        sampleExceptionParams sampleRegistry).sentEvents =
      (EventsToClientReporter.sendOutput realConverters
        (EventsToClientReporter.delegatedOutputParams sampleExceptionParams)
        sampleRegistry).sentEvents ∧
    sampleExceptionBody.output = "at foo (a.js:1:1)" ∧
    sampleExceptionBody.category = "stderr" :=
  have hmain := sendExceptionThrown_is_output_delegation realConverters
    sampleExceptionParams sampleRegistry
  have hflds := hmain.2 sampleExceptionBody rfl
  ⟨hmain.1.2.2, hflds.1, hflds.2⟩

/-- C5: when an invoked converter fails, the reporter dispatches zero events
to the session for that request and the failure propagates to the caller as
the failed pending operation carrying the converter's error, with no
retry. -/
theorem conversion_failure_no_dispatch :
    (∀ (c : Converters) (p : IOutputParameters) (loc : LocationInLoadedSource)
        (reg reg' : HandlesRegistry) (e : ConvErr),
        p.location = some loc →
        c.toLocationInSource loc
            (EventsToClientReporter.sendOutputBodyBeforeLocation p) reg =
          (Except.error e, reg') →
        EventsToClientReporter.sendOutput c p reg =
          { result := Except.error e, params := p, registry := reg',
            sentEvents := [] }) ∧
    (∀ (c : Converters) (p : ISourceWasLoadedParameters)
        (reg reg' : HandlesRegistry) (e : ConvErr),
        c.toSource p.source reg = (Except.error e, reg') →
        EventsToClientReporter.sendSourceWasLoaded c p reg =
          { result := Except.error e, params := p, registry := reg',
            sentEvents := [] }) ∧
    (∀ (c : Converters) (p : IBPStatusChangedParameters)
        (reg reg' : HandlesRegistry) (e : ConvErr),
        c.toBreakpoint p.bpRecipeStatus reg = (Except.error e, reg') →
        EventsToClientReporter.sendBPStatusChanged c p reg =
          { result := Except.error e, params := p, registry := reg',
            sentEvents := [] }) ∧
    (∀ (c : Converters) (p : IExceptionThrownParameters)
        (loc : LocationInLoadedSource) (reg reg' : HandlesRegistry) (e : ConvErr),
        p.location = some loc →
        c.toLocationInSource loc
            (EventsToClientReporter.sendOutputBodyBeforeLocation
              (EventsToClientReporter.delegatedOutputParams p)) reg =
          (Except.error e, reg') →
        EventsToClientReporter.sendExceptionThrown c p reg =
          { result := Except.error e, params := p, registry := reg',
            sentEvents := [] }) := by
  refine ⟨sendOutput_of_location_some_error, sendSourceWasLoaded_of_error,
    sendBPStatusChanged_of_error, ?_⟩
  intro c p loc reg reg' e hp hc
  have hinner := sendOutput_of_location_some_error c
    (EventsToClientReporter.delegatedOutputParams p) loc reg reg' e hp hc
  rw [sendExceptionThrown_eq, hinner]

/-- Witness for C5: with converters that fail, each operation that invokes a
converter dispatches zero events and surfaces the converter's error. -/
theorem conversion_failure_no_dispatch_witness :
    EventsToClientReporter.sendOutput failingConverters sampleOutputParams
        sampleRegistry =
      { result := Except.error "location conversion failed",
        params := sampleOutputParams, registry := sampleRegistry,
        sentEvents := [] } ∧
    EventsToClientReporter.sendSourceWasLoaded failingConverters sampleSourceParams
        sampleRegistry =
      { result := Except.error "source conversion failed",
        params := sampleSourceParams, registry := sampleRegistry,
        sentEvents := [] } ∧
    EventsToClientReporter.sendBPStatusChanged failingConverters sampleBPParams
        sampleRegistry =
      { result := Except.error "breakpoint status conversion failed",
        params := sampleBPParams, registry := sampleRegistry,
        sentEvents := [] } ∧
    EventsToClientReporter.sendExceptionThrown failingConverters
        sampleExceptionParams sampleRegistry =
      { result := Except.error "location conversion failed",
        params := sampleExceptionParams, registry := sampleRegistry,
        sentEvents := [] } :=
  ⟨conversion_failure_no_dispatch.1 failingConverters sampleOutputParams
      sampleLocation sampleRegistry sampleRegistry "location conversion failed" rfl rfl,
   conversion_failure_no_dispatch.2.1 failingConverters sampleSourceParams
      sampleRegistry sampleRegistry "source conversion failed" rfl,
   conversion_failure_no_dispatch.2.2.1 failingConverters sampleBPParams
      sampleRegistry sampleRegistry "breakpoint status conversion failed" rfl,
   conversion_failure_no_dispatch.2.2.2 failingConverters sampleExceptionParams
      sampleLocation sampleRegistry sampleRegistry "location conversion failed" rfl rfl⟩

/-- C6: for a loaded source with no addressable path, two successive
`sendSourceWasLoaded` calls for the same source identity (the second
starting from the registry state the first left behind) produce LoadedSource
events whose client sources reference the identical handle — the handle the
registry mints (or already holds) for that identity. -/
theorem sendSourceWasLoaded_handle_idempotent (s : ILoadedSource)
    (r1 r2 : SourceLoadReason) (reg : HandlesRegistry)
    (hpath : s.path = none) (cs1 cs2 : ClientSource)
    (h1 : (EventsToClientReporter.sendSourceWasLoaded realConverters ⟨r1, s⟩
        reg).sentEvents = [ProtocolEvent.loadedSource r1 cs1])
    (h2 : (EventsToClientReporter.sendSourceWasLoaded realConverters ⟨r2, s⟩
        (EventsToClientReporter.sendSourceWasLoaded realConverters ⟨r1, s⟩
          reg).registry).sentEvents = [ProtocolEvent.loadedSource r2 cs2]) :
    cs1.sourceReference = some (reg.registerSource s.identifier).1 ∧
    cs2.sourceReference = some (reg.registerSource s.identifier).1 ∧
    cs1.sourceReference = cs2.sourceReference := by
  have hts1 : realConverters.toSource s reg =
      (Except.ok { name := some s.identifier, path := none,
                   sourceReference := some (reg.registerSource s.identifier).1 },
       (reg.registerSource s.identifier).2) :=
    toSource_of_path_none s reg hpath
  have e1 := sendSourceWasLoaded_of_ok realConverters ⟨r1, s⟩ reg
    (reg.registerSource s.identifier).2
    { name := some s.identifier, path := none,
      sourceReference := some (reg.registerSource s.identifier).1 } hts1
  rw [e1] at h1 h2
  dsimp only at h2
  have hidem : (reg.registerSource s.identifier).2.registerSource s.identifier =
      reg.registerSource s.identifier := registerSource_idem reg s.identifier
  have hts2 : realConverters.toSource s (reg.registerSource s.identifier).2 =
      (Except.ok { name := some s.identifier, path := none,
                   sourceReference := some (reg.registerSource s.identifier).1 },
       (reg.registerSource s.identifier).2) := by
    have := toSource_of_path_none s (reg.registerSource s.identifier).2 hpath
    rw [hidem] at this
    exact this
  have e2 := sendSourceWasLoaded_of_ok realConverters ⟨r2, s⟩
    (reg.registerSource s.identifier).2 (reg.registerSource s.identifier).2
    { name := some s.identifier, path := none,
      sourceReference := some (reg.registerSource s.identifier).1 } hts2
  rw [e2] at h2
  dsimp only at h1 h2
  injection h1 with hhead1 _
  injection hhead1 with _ hcs1
  injection h2 with hhead2 _
  injection hhead2 with _ hcs2
  subst hcs1
  subst hcs2
  exact ⟨rfl, rfl, rfl⟩

/-- Witness for C6: two successive loads of the concrete memory-only source
both reference handle 0. -/
theorem sendSourceWasLoaded_handle_idempotent_witness :
    sampleClientSource.sourceReference = some 0 ∧
    sampleClientSource.sourceReference = some 0 ∧
    sampleClientSource.sourceReference = sampleClientSource.sourceReference :=
  sendSourceWasLoaded_handle_idempotent sampleMemorySource SourceLoadReason.new
    SourceLoadReason.changed sampleRegistry rfl sampleClientSource
    sampleClientSource rfl rfl

/-- C10: no Output event emitted by `sendExceptionThrown` ever carries a
variables reference: the exception request shape has none and the delegation
omits the field, for any location converter that does not touch the
reference field it was handed. -/
theorem sendExceptionThrown_never_variablesReference (c : Converters)
    (hpres : ∀ (loc : LocationInLoadedSource) (body : OutputEventBody)
        (reg : HandlesRegistry) (body' : OutputEventBody) (reg' : HandlesRegistry),
        c.toLocationInSource loc body reg = (Except.ok body', reg') →
        body'.variablesReference = body.variablesReference)
    (p : IExceptionThrownParameters) (reg : HandlesRegistry)
    (body : OutputEventBody)
    (hmem : ProtocolEvent.output body ∈
      (EventsToClientReporter.sendExceptionThrown c p reg).sentEvents) :
    body.variablesReference = none := by
  have hmem' : ProtocolEvent.output body ∈
      (EventsToClientReporter.sendOutput c
        (EventsToClientReporter.delegatedOutputParams p) reg).sentEvents := hmem
  cases hl : (EventsToClientReporter.delegatedOutputParams p).location with
  | none =>
    rw [sendOutput_of_location_none c
      (EventsToClientReporter.delegatedOutputParams p) reg hl] at hmem'
    simp only [List.mem_singleton] at hmem'
    injection hmem' with hbody
    subst hbody
    rfl
  | some loc =>
    cases hc : c.toLocationInSource loc
        (EventsToClientReporter.sendOutputBodyBeforeLocation
          (EventsToClientReporter.delegatedOutputParams p)) reg with
    | mk res reg' =>
      cases res with
      | ok body' =>
        rw [sendOutput_of_location_some_ok c
          (EventsToClientReporter.delegatedOutputParams p) loc reg reg' body'
          hl hc] at hmem'
        simp only [List.mem_singleton] at hmem'
        injection hmem' with hbody
        subst hbody
        rw [hpres loc (EventsToClientReporter.sendOutputBodyBeforeLocation
          (EventsToClientReporter.delegatedOutputParams p)) reg body reg' hc]
        rfl
      | error e =>
        rw [sendOutput_of_location_some_error c
          (EventsToClientReporter.delegatedOutputParams p) loc reg reg' e
          hl hc] at hmem'
        simp at hmem'

/-- Witness for C10: the body emitted for the concrete exception request
carries no variables reference. -/
theorem sendExceptionThrown_never_variablesReference_witness :
    sampleExceptionBody.variablesReference = none :=
  sendExceptionThrown_never_variablesReference realConverters
    realConverters_preserve_vr sampleExceptionParams sampleRegistry
    sampleExceptionBody (by decide)
